import Mathlib

/-!
Verification of the Promo-Meave multi-reposter scripts.

The repository consists of three near-identical Python scripts
(`multi_reposter_grovel4maeve.py`, `multi_reposter_luanablack2.py`,
`multi_reposter_nakedneighbour1985.py`).  Each script logs a set of bot
accounts in, fetches a target account's recent feed, filters it to the
target's own media posts, selects the newest plus two random older posts,
orders them oldest-first and refreshes the repost (and, in two variants,
the like) relation for each.

This file shallowly embeds the pure decision logic of those scripts
(classification, selection, ordering) and models the fallible network
calls of the synchronisation and account loops as explicit call traces
driven by an outcome oracle, then proves the frozen claims about them.

Modelling conventions:
- Python attribute access `getattr(x, "f", None)` on optional data is an
  `Option` field; an or-chain of type-tag lookups (`py_type` / `_type` /
  `"$type"`) is collapsed into the single `typeTag` field of the record
  in question, since the scripts only ever use the first truthy value.
- Python string truthiness (`if s:`) is `s != ""` on an optional string.
- Python object identity `id(fp)` is the explicit `oid : Nat` field of a
  feed item.
- `except Exception` blocks make the Python functions total; the embedded
  functions are total Lean functions whose traces record every API call
  that the script issues, with an `Oracle` fixing which calls succeed.
-/

/-- ASCII prefix test on character lists (`leadsWith pat l` is true iff
`pat` is an initial segment of `l`). -/
def leadsWith : List Char → List Char → Bool
  | [], _ => true
  | _ :: _, [] => false
  | p :: ps, c :: cs => p == c && leadsWith ps cs

/-- Substring test on character lists, mirroring Python's `in` operator
on strings. -/
def charSub (pat : List Char) : List Char → Bool
  | [] => pat.isEmpty
  | c :: cs => leadsWith pat (c :: cs) || charSub pat cs

/-- `strContains s pat` models Python's `pat in s`. -/
def strContains (s pat : String) : Bool :=
  charSub pat.data s.data

/-- ASCII lower-casing of a string, modelling `str.lower()` on the ASCII
type tags the scripts compare against. -/
def lowerStr (s : String) : String :=
  String.mk (s.data.map Char.toLower)

/-- Python truthiness of an optional string: `None` and `""` are falsy. -/
def truthyStr : Option String → Bool
  | none => false
  | some s => s != ""

/-- An embed attached to a post: an optional type tag, an optional list
of images, and an optional nested media embed (the shape the scripts
probe with `getattr`).  Recursive because `multi_reposter_grovel4maeve`
recurses into the `.media` field. -/
inductive Embed where
  | mk (typeTag : Option String) (images : Option (List String)) (media : Option Embed)

/-- Decidable equality of embeds (by recursion on the nested media). -/
def Embed.decEq : (a b : Embed) → Decidable (a = b)
  | .mk t1 i1 none, .mk t2 i2 none =>
    if h : t1 = t2 ∧ i1 = i2 then isTrue (by rw [h.1, h.2])
    else isFalse (by intro hc; injection hc with h1 h2 _; exact h ⟨h1, h2⟩)
  | .mk _ _ none, .mk _ _ (some _) =>
    isFalse (by intro hc; injection hc with _ _ h3; exact Option.noConfusion h3)
  | .mk _ _ (some _), .mk _ _ none =>
    isFalse (by intro hc; injection hc with _ _ h3; exact Option.noConfusion h3)
  | .mk t1 i1 (some x), .mk t2 i2 (some y) =>
    if h : t1 = t2 ∧ i1 = i2 then
      match Embed.decEq x y with
      | isTrue hxy => isTrue (by rw [h.1, h.2, hxy])
      | isFalse hxy =>
        isFalse (by intro hc; injection hc with _ _ h3; injection h3 with h4; exact hxy h4)
    else isFalse (by intro hc; injection hc with h1 h2 _; exact h ⟨h1, h2⟩)

instance : DecidableEq Embed := Embed.decEq

/-- The `$type` / `_type` / `py_type` tag of an embed. -/
def Embed.typeTag : Embed → Option String
  | .mk t _ _ => t

/-- The `images` attribute of an embed. -/
def Embed.images : Embed → Option (List String)
  | .mk _ i _ => i

/-- The nested `media` attribute of an embed. -/
def Embed.media : Embed → Option Embed
  | .mk _ _ m => m

/-- A post author (`post.author`), with an optional handle. -/
structure Author where
  handle : Option String
deriving DecidableEq

/-- The record of a post (`post.record`): its declared type tag and its
`createdAt` timestamp. -/
structure PostRecord where
  typeTag : Option String
  createdAt : Option String
deriving DecidableEq

/-- The acting account's viewer state on a post: the URIs of its
existing repost and like records, when present. -/
structure Viewer where
  repost : Option String
  like : Option String
deriving DecidableEq

/-- A post view from the author feed. -/
structure PostView where
  uri : String
  cid : String
  author : Option Author
  record : Option PostRecord
  embed : Option Embed
  viewer : Option Viewer
  indexedAt : Option String
deriving DecidableEq

/-- The `reason` attached to a feed item when the platform reports it as
a repost by the viewed author. -/
structure Reason where
  typeTag : Option String
deriving DecidableEq

/-- One entry of the author feed.  `oid` models the Python object
identity `id(fp)` that `multi_reposter_grovel4maeve` keys its index map
by; `post` is a required attribute of a feed item (the scripts access it
directly), `reason` is optional. -/
structure FeedItem where
  oid : Nat
  post : PostView
  reason : Option Reason
deriving DecidableEq

/-- `is_media` from `multi_reposter_grovel4maeve.py` (the inner helper
of `has_media`): media iff the lower-cased type tag mentions images or
video, or a non-empty images list is present, or the nested `.media`
embed is itself media. -/
def is_media : Embed → Bool
  | .mk tt imgs inner =>
    let t := lowerStr (tt.getD "")
    if strContains t "images" || strContains t "video" then true
    else if !(imgs.getD []).isEmpty then true
    else
      match inner with
      | some e2 => is_media e2
      | none => false

/-- Unfolding equation of `is_media`. -/
theorem is_media_mk (tt : Option String) (imgs : Option (List String)) (inner : Option Embed) :
    is_media (.mk tt imgs inner) =
      (if strContains (lowerStr (tt.getD "")) "images" ||
          strContains (lowerStr (tt.getD "")) "video" then true
       else if !(imgs.getD []).isEmpty then true
       else
         match inner with
         | some e2 => is_media e2
         | none => false) := by
  rw [is_media.eq_def]

/-- `has_media` from `multi_reposter_grovel4maeve.py`: no embed means no
media, otherwise classify the embed with `is_media`. -/
def has_media_grovel (pv : PostView) : Bool :=
  match pv.embed with
  | none => false
  | some e => is_media e

/-- `has_media` from `multi_reposter_luanablack2.py`: true iff the embed
has a non-empty images list, or a nested `.media` embed with a non-empty
images list.  (This variant has no video check.) -/
def has_media_luana (pv : PostView) : Bool :=
  match pv.embed with
  | none => false
  | some e =>
    if !(e.images.getD []).isEmpty then true
    else
      match e.media with
      | some m => !(m.images.getD []).isEmpty
      | none => false

/-- `has_media` from `multi_reposter_nakedneighbour1985.py`: true iff
the embed's type tag mentions `embed.images` or `embed.video` (no
recursion into a quote-with-media wrapper, no lower-casing). -/
def has_media_naked (pv : PostView) : Bool :=
  match pv.embed with
  | none => false
  | some e =>
    let t := e.typeTag.getD ""
    strContains t "embed.images" || strContains t "embed.video"

/-- `is_original_post` from `multi_reposter_nakedneighbour1985.py`: true
iff the record's declared type mentions `app.bsky.feed.post`.  It only
receives the post view, so the feed item's `reason` and the author
handle play no role. -/
def is_original_post (pv : PostView) : Bool :=
  let rt := (pv.record.bind PostRecord.typeTag).getD ""
  strContains rt "app.bsky.feed.post"

/-- The guard `if handle and handle != actor_handle:` shared by
`filter_valid_posts` (grovel4maeve) and `is_own_original_post`
(luanablack2): the author handle is truthy and differs from the target. -/
def handle_bad (item : FeedItem) (actor : String) : Bool :=
  let h := item.post.author.bind Author.handle
  truthyStr h && (h.getD "" != actor)

/-- The reason type tag as `multi_reposter_luanablack2.py` reads it:
`getattr(reason, "$type", "") if reason else ""`. -/
def reason_tag (item : FeedItem) : String :=
  match item.reason with
  | some r => r.typeTag.getD ""
  | none => ""

/-- `is_own_original_post` from `multi_reposter_luanablack2.py`: false
when the author handle is truthy and differs from the target, false when
the reason's type tag mentions `reasonRepost`, true otherwise. -/
def is_own_original_post (item : FeedItem) (actor : String) : Bool :=
  if handle_bad item actor then false
  else if strContains (reason_tag item) "reasonRepost" then false
  else true

/-- `filter_valid_posts` from `multi_reposter_grovel4maeve.py`: keep the
items whose author handle is not a known different handle, that carry no
`reason` at all, and whose post has media.  (The script's
`if not post_view` guard cannot fire because `post` is a required
attribute of a feed item, so it is not modelled.) -/
def filter_valid_posts (feed : List FeedItem) (actor : String) : List FeedItem :=
  feed.filter fun item =>
    if handle_bad item actor then false
    else if item.reason.isSome then false
    else has_media_grovel item.post

/-- `choose_posts_for_run` (identical in all three scripts), with the
call to `random.sample` abstracted into a `sampler` argument: keep the
newest item and, when older items exist, extend with
`sampler older (min num_random_older older.length)`. -/
def choose_posts_for_run (sampler : List FeedItem → Nat → List FeedItem)
    (feed_posts : List FeedItem) (num_random_older : Nat) : List FeedItem :=
  match feed_posts with
  | [] => []
  | newest :: older =>
    if older.isEmpty then [newest]
    else newest :: sampler older (min num_random_older older.length)

/-- The behaviour `random.sample(l, k)` guarantees whenever `k ≤ l.length`:
the result has length `k` and consists of elements drawn at distinct
positions of `l` (a subpermutation of `l`). -/
def SampleSpec (sampler : List FeedItem → Nat → List FeedItem) : Prop :=
  ∀ (l : List FeedItem) (k : Nat), k ≤ l.length →
    (sampler l k).length = k ∧ List.Subperm (sampler l k) l

/-- The index map of `order_posts_old_to_new` in
`multi_reposter_grovel4maeve.py`: the dictionary maps each item's object
identity to its index (later entries overwrite earlier ones), and a
lookup of an absent identity yields the default 9999. -/
def index_of_oid (full : List FeedItem) (oid : Nat) : Nat :=
  full.enum.foldl (fun acc p => if p.2.oid = oid then p.1 else acc) 9999

/-- The comparison `order_posts_old_to_new` sorts by: descending on the
feed index component (`reverse=True` on the key `x[0]`). -/
def idxGE (a b : Nat × FeedItem) : Prop :=
  b.1 ≤ a.1

instance : DecidableRel idxGE := fun a b => inferInstanceAs (Decidable (b.1 ≤ a.1))

instance : IsTotal (Nat × FeedItem) idxGE :=
  ⟨fun a b => (Nat.le_total b.1 a.1).imp id id⟩

instance : IsTrans (Nat × FeedItem) idxGE :=
  ⟨fun _ _ _ h1 h2 => Nat.le_trans h2 h1⟩

/-- `order_posts_old_to_new` from `multi_reposter_grovel4maeve.py`: pair
each selected item with its original index in the full feed, stable-sort
the pairs descending on that index (Python's `list.sort(reverse=True)`;
`insertionSort idxGE` places an item before later tied items, which is
exactly that stable order), and drop the indices. -/
def order_posts_old_to_new (selected full : List FeedItem) : List FeedItem :=
  ((selected.map fun fp => (index_of_oid full fp.oid, fp)).insertionSort idxGE).map Prod.snd

/-- `get_post_timestamp` from `multi_reposter_luanablack2.py`: the
record's `created_at` / `createdAt` when truthy, else the post view's
`indexed_at` / `indexedAt`, else the empty string. -/
def get_post_timestamp (item : FeedItem) : String :=
  let created :=
    match item.post.record with
    | some r => r.createdAt.getD ""
    | none => ""
  if created ≠ "" then created
  else item.post.indexedAt.getD ""

/-- The comparison `sorted(to_repost, key=get_post_timestamp)` in
`multi_reposter_luanablack2.py` sorts by: code-point-lexicographic order
of the timestamp strings (Python string comparison), here as the
lexicographic order of the character lists. -/
def tsLE (a b : FeedItem) : Prop :=
  (get_post_timestamp a).data ≤ (get_post_timestamp b).data

instance : DecidableRel tsLE :=
  fun a b =>
    inferInstanceAs (Decidable ((get_post_timestamp a).data ≤ (get_post_timestamp b).data))

instance : IsTotal FeedItem tsLE := ⟨fun _ _ => le_total _ _⟩

instance : IsTrans FeedItem tsLE := ⟨fun _ _ _ h1 h2 => le_trans h1 h2⟩

/-- The ordering step of `process_account` in
`multi_reposter_luanablack2.py` (line 256):
`sorted(to_repost, key=get_post_timestamp)`, a stable ascending sort on
the timestamp string. -/
def sorted_by_timestamp_luana (selected : List FeedItem) : List FeedItem :=
  selected.insertionSort tsLE

/-- One client API call issued by a script. -/
inductive Call where
  | deleteRepost (uri : String)
  | deleteLike (uri : String)
  | createRepost (uri cid : String)
  | createLike (uri cid : String)
deriving DecidableEq

/-- Which kinds of API call succeed during a run; a call whose flag is
false raises, and the scripts catch the exception as indicated. -/
structure Oracle where
  deleteRepostOk : Bool
  deleteLikeOk : Bool
  repostOk : Bool
  likeOk : Bool
deriving DecidableEq

/-- Truthiness filter on an optional string: Python's `if s:` succeeds
iff this is `some`. -/
def truthyOpt : Option String → Option String
  | none => none
  | some s => if s = "" then none else some s

/-- The viewer's existing repost URI of a feed item's post, as the
scripts read it (`getattr(viewer, "repost", None) if viewer else None`),
filtered by the `if repost_uri:` truthiness test. -/
def repost_uri_of (item : FeedItem) : Option String :=
  truthyOpt (item.post.viewer.bind Viewer.repost)

/-- The viewer's existing like URI, filtered by `if like_uri:`. -/
def like_uri_of (item : FeedItem) : Option String :=
  truthyOpt (item.post.viewer.bind Viewer.like)

/-- The delete-repost call the scripts issue when the viewer state shows
an existing repost (the `except` clause only logs, so the call appears
in the trace whether or not it succeeds). -/
def del_repost_calls (item : FeedItem) : List Call :=
  match repost_uri_of item with
  | some ru => [Call.deleteRepost ru]
  | none => []

/-- The delete-like call `multi_reposter_luanablack2.py` issues when the
viewer state shows an existing like. -/
def del_like_calls (item : FeedItem) : List Call :=
  match like_uri_of item with
  | some lu => [Call.deleteLike lu]
  | none => []

/-- Call trace of `unrepost_if_needed_and_repost` from
`multi_reposter_grovel4maeve.py`: optional delete of the old repost
(failure caught), then the repost creation (failure caught). -/
def unrepost_if_needed_and_repost (_o : Oracle) (item : FeedItem) : List Call :=
  del_repost_calls item ++ [Call.createRepost item.post.uri item.post.cid]

/-- Call trace of `unrepost_if_needed_and_repost_with_like` from
`multi_reposter_luanablack2.py`: optional delete of the old repost, then
optional delete of the old like (both failures caught), then the repost
creation; only when that succeeds, the like creation (whose own failure
is caught). -/
def unrepost_if_needed_and_repost_with_like (o : Oracle) (item : FeedItem) : List Call :=
  let base := del_repost_calls item ++ del_like_calls item ++
    [Call.createRepost item.post.uri item.post.cid]
  if o.repostOk then base ++ [Call.createLike item.post.uri item.post.cid] else base

/-- Call trace of `ensure_like` from
`multi_reposter_nakedneighbour1985.py`: if the viewer already holds a
like the function only logs and returns (no delete, no create);
otherwise it attempts one like creation (failure caught). -/
def ensure_like (_o : Oracle) (pv : PostView) : List Call :=
  match truthyOpt (pv.viewer.bind Viewer.like) with
  | some _ => []
  | none => [Call.createLike pv.uri pv.cid]

/-- Call trace of `unrepost_if_needed_and_repost_and_like` from
`multi_reposter_nakedneighbour1985.py`: optional delete of the old
repost (failure caught), the repost creation, and — only when the repost
creation succeeds — `ensure_like`. -/
def unrepost_if_needed_and_repost_and_like (o : Oracle) (item : FeedItem) : List Call :=
  let base := del_repost_calls item ++ [Call.createRepost item.post.uri item.post.cid]
  if o.repostOk then base ++ ensure_like o item.post else base

/-- The numbers of active repost and like records the acting account
holds on one post. -/
structure RelState where
  reposts : Nat
  likes : Nat
deriving DecidableEq

/-- Effect of one API call on the relation state: a call mutates the
state only when the oracle lets it succeed. -/
def applyCall (o : Oracle) (s : RelState) : Call → RelState
  | .deleteRepost _ => if o.deleteRepostOk then { s with reposts := s.reposts - 1 } else s
  | .deleteLike _ => if o.deleteLikeOk then { s with likes := s.likes - 1 } else s
  | .createRepost _ _ => if o.repostOk then { s with reposts := s.reposts + 1 } else s
  | .createLike _ _ => if o.likeOk then { s with likes := s.likes + 1 } else s

/-- Run a call trace against a relation state. -/
def runCalls (o : Oracle) (s : RelState) (cs : List Call) : RelState :=
  cs.foldl (applyCall o) s

/-- The per-post loop at the end of `process_account`: each post is
handed to the per-post synchroniser `f` in order, with its own outcome
oracle, and the traces accumulate. -/
def run_posts (f : Oracle → FeedItem → List Call) : List (Oracle × FeedItem) → List Call
  | [] => []
  | j :: rest => f j.1 j.2 ++ run_posts f rest

/-- Recognizer for repost-delete calls. -/
def isDeleteRepost : Call → Bool
  | .deleteRepost _ => true
  | _ => false

/-- Recognizer for like-create calls. -/
def isCreateLike : Call → Bool
  | .createLike _ _ => true
  | _ => false

/-- Environment of one bot account: its stored credentials and the
outcomes of its login and feed fetch. -/
structure AccountEnv where
  username : Option String
  password : Option String
  loginOk : Bool
  fetchOk : Bool
  feed : List FeedItem
deriving DecidableEq

/-- Outcome of `process_account` for one account. -/
inductive AccountResult where
  | skippedNoCreds
  | skippedLogin
  | skippedFetch
  | ran (validPosts : Nat)
deriving DecidableEq

/-- `get_client_for_account` + `process_account` from
`multi_reposter_grovel4maeve.py`, reduced to its control flow: missing
or empty credentials skip the account with a warning; a failed login
skips it; a failed fetch skips it; otherwise the pipeline runs to
completion on the fetched feed (reported here by the number of posts
surviving `filter_valid_posts`). -/
def process_account (env : AccountEnv) (target : String) : AccountResult :=
  if !truthyStr env.username || !truthyStr env.password then .skippedNoCreds
  else if !env.loginOk then .skippedLogin
  else if !env.fetchOk then .skippedFetch
  else .ran (filter_valid_posts env.feed target).length

/-- `main` from `multi_reposter_grovel4maeve.py`: every configured
account is processed in turn; `process_account` never raises, so the
loop always reaches every account. -/
def main_run (envs : List AccountEnv) (target : String) : List AccountResult :=
  envs.map fun e => process_account e target

/-! ### Concrete values used by witnesses and counterexamples -/

/-- A post view with every optional field absent. -/
def pvEmpty : PostView :=
  ⟨"", "", none, none, none, none, none⟩

/-- A feed item whose post has object identity `i` and no optional
fields. -/
def bareItem (i : Nat) : FeedItem :=
  ⟨i, pvEmpty, none⟩

/-- A video embed as the platform renders it. -/
def videoEmbed : Embed :=
  .mk (some "app.bsky.embed.video#view") none none

/-- A post whose embed is a video embed. -/
def pvVideo : PostView :=
  ⟨"u", "c", none, none, some videoEmbed, none, none⟩

/-- An all-succeeding oracle. -/
def oAllOk : Oracle := ⟨true, true, true, true⟩

/-- An oracle under which the repost creation fails and everything else
succeeds. -/
def oRepostFails : Oracle := ⟨true, true, false, true⟩

/-- A feed item whose post the acting account has already reposted and
liked. -/
def itemRepLiked : FeedItem :=
  ⟨0, ⟨"u0", "c0", none, none, none, some ⟨some "r0", some "l0"⟩, none⟩, none⟩

/-- A feed item whose post the acting account has liked but not
reposted. -/
def itemLikedOnly : FeedItem :=
  ⟨1, ⟨"u1", "c1", none, none, none, some ⟨none, some "l1"⟩, none⟩, none⟩

/-! ### Claim C2 -/

/-- Claim C2 is false as stated: it requires `hasMedia` to be true for
every post whose embed is a video embed, but `has_media` in
`multi_reposter_luanablack2.py` checks only for an images list (directly
or under a `.media` wrapper) and returns false on a video embed. -/
theorem claim2_counterexample :
    pvVideo.embed = some (Embed.mk (some "app.bsky.embed.video#view") none none) ∧
    has_media_luana pvVideo = false ∧
    has_media_grovel pvVideo = true ∧
    has_media_naked pvVideo = true := by
  refine ⟨rfl, by decide, by decide, by decide⟩

/-- Claim C2 (amended): the `has_media` of
`multi_reposter_grovel4maeve.py` classifies as media an embed with a
non-empty images list, an embed whose (lower-cased) type tag mentions
images or video, and a wrapper whose nested `.media` embed carries
media, and classifies an absent or unrecognized embed as no-media; the
`multi_reposter_luanablack2.py` variant recognizes exactly an embed with
a non-empty images list or a `.media` wrapper with a non-empty images
list — and hence not a video embed; the
`multi_reposter_nakedneighbour1985.py` variant recognizes exactly an
embed whose type tag mentions `embed.images` or `embed.video`. -/
theorem claim2_amended :
    (∀ pv : PostView, pv.embed = none → has_media_grovel pv = false) ∧
    (∀ (pv : PostView) (tt : Option String) (imgs : List String) (m : Option Embed),
      pv.embed = some (.mk tt (some imgs) m) → imgs ≠ [] →
      has_media_grovel pv = true) ∧
    (∀ (pv : PostView) (e : Embed), pv.embed = some e →
      (strContains (lowerStr (e.typeTag.getD "")) "images" = true ∨
       strContains (lowerStr (e.typeTag.getD "")) "video" = true) →
      has_media_grovel pv = true) ∧
    (∀ (pv : PostView) (tt : Option String) (imgs : Option (List String)) (inner : Embed),
      pv.embed = some (.mk tt imgs (some inner)) → is_media inner = true →
      has_media_grovel pv = true) ∧
    (∀ (pv : PostView) (tt : Option String),
      pv.embed = some (.mk tt none none) →
      strContains (lowerStr (tt.getD "")) "images" = false →
      strContains (lowerStr (tt.getD "")) "video" = false →
      has_media_grovel pv = false) ∧
    (∀ pv : PostView, has_media_luana pv = true ↔
      ∃ e, pv.embed = some e ∧
        (e.images.getD [] ≠ [] ∨ ∃ m, e.media = some m ∧ m.images.getD [] ≠ [])) ∧
    (∀ pv : PostView, has_media_naked pv = true ↔
      ∃ e, pv.embed = some e ∧
        (strContains (e.typeTag.getD "") "embed.images" = true ∨
         strContains (e.typeTag.getD "") "embed.video" = true)) := by
  refine ⟨?_, ?_, ?_, ?_, ?_, ?_, ?_⟩
  · intro pv h
    simp [has_media_grovel, h]
  · intro pv tt imgs m h hne
    obtain ⟨a, as, rfl⟩ := List.exists_cons_of_ne_nil hne
    simp [has_media_grovel, h, is_media_mk]
  · intro pv e h htag
    obtain ⟨tt, imgs, m⟩ := e
    simp only [Embed.typeTag] at htag
    rcases htag with htag | htag <;> simp [has_media_grovel, h, is_media_mk, htag]
  · intro pv tt imgs inner h hm
    simp [has_media_grovel, h, is_media_mk, hm]
  · intro pv tt h h1 h2
    simp [has_media_grovel, h, is_media_mk, h1, h2]
  · intro pv
    cases hpv : pv.embed with
    | none => simp [has_media_luana, hpv]
    | some e =>
      obtain ⟨tt, imgs, m⟩ := e
      cases imgs with
      | none =>
        cases m with
        | none => simp [has_media_luana, hpv, Embed.images, Embed.media]
        | some mm =>
          cases hmi : mm.images.getD [] with
          | nil => simp [has_media_luana, hpv, Embed.images, Embed.media, hmi]
          | cons a as => simp [has_media_luana, hpv, Embed.images, Embed.media, hmi]
      | some il =>
        cases il with
        | nil =>
          cases m with
          | none => simp [has_media_luana, hpv, Embed.images, Embed.media]
          | some mm =>
            cases hmi : mm.images.getD [] with
            | nil => simp [has_media_luana, hpv, Embed.images, Embed.media, hmi]
            | cons a as => simp [has_media_luana, hpv, Embed.images, Embed.media, hmi]
        | cons a as => simp [has_media_luana, hpv, Embed.images, Embed.media]
  · intro pv
    cases hpv : pv.embed with
    | none => simp [has_media_naked, hpv]
    | some e => simp [has_media_naked, hpv, Bool.or_eq_true]

/-- Witness for `claim2_amended` at concrete inputs: the video-tagged
embed is media for the grovel4maeve variant. -/
theorem claim2_witness :
    has_media_grovel pvVideo = true :=
  claim2_amended.2.2.1 pvVideo videoEmbed rfl (Or.inr (by decide))

/-! ### Claim C7 -/

/-- A post whose record declares the original post type. -/
def pvPostRec : PostView :=
  ⟨"u", "c", none, some ⟨some "app.bsky.feed.post", none⟩, none, none, none⟩

/-- A feed item with a repost-reason marker on an original-typed post. -/
def reasonedItem : FeedItem :=
  ⟨0, pvPostRec, some ⟨some "app.bsky.feed.defs#reasonRepost"⟩⟩

/-- A feed item whose reason marker is present but not a repost reason. -/
def pinReasonItem : FeedItem :=
  ⟨1, pvEmpty, some ⟨some "app.bsky.feed.defs#reasonPin"⟩⟩

/-- Claim C7 is false as stated: it requires isOriginal to return false
whenever the item's reason marker is present, but `is_original_post` in
`multi_reposter_nakedneighbour1985.py` only inspects the post record's
type and returns true on a reason-marked item whose record is an
original post record, and `is_own_original_post` in
`multi_reposter_luanablack2.py` returns true on an item whose reason
marker is present but is not a `reasonRepost` marker. -/
theorem claim7_counterexample :
    reasonedItem.reason.isSome = true ∧
    is_original_post reasonedItem.post = true ∧
    pinReasonItem.reason.isSome = true ∧
    is_own_original_post pinReasonItem "target" = true := by
  refine ⟨by decide, by decide, by decide, by decide⟩

/-- Claim C7 (amended): the originality checks differ per variant.  The
grovel4maeve filter keeps exactly the items whose handle is not a known
differing handle, that carry no reason marker of any kind, and that have
media; the luanablack2 check returns false exactly when the handle is a
known differing handle or the reason's type tag mentions `reasonRepost`;
the nakedneighbour1985 check returns true exactly when the record's
declared type mentions `app.bsky.feed.post`, ignoring the reason marker
and the author handle entirely. -/
theorem claim7_amended :
    (∀ (feed : List FeedItem) (actor : String) (item : FeedItem),
      item ∈ filter_valid_posts feed actor ↔
        item ∈ feed ∧ handle_bad item actor = false ∧ item.reason = none ∧
        has_media_grovel item.post = true) ∧
    (∀ (item : FeedItem) (actor : String),
      is_own_original_post item actor = false ↔
        handle_bad item actor = true ∨
        ∃ r, item.reason = some r ∧
          strContains (r.typeTag.getD "") "reasonRepost" = true) ∧
    (∀ pv : PostView,
      is_original_post pv = true ↔
        ∃ rc t, pv.record = some rc ∧ rc.typeTag = some t ∧
          strContains t "app.bsky.feed.post" = true) ∧
    (∀ (pv : PostView) (a : Option Author),
      is_original_post { pv with author := a } = is_original_post pv) := by
  refine ⟨?_, ?_, ?_, ?_⟩
  · intro feed actor item
    rw [filter_valid_posts, List.mem_filter]
    cases hhb : handle_bad item actor <;> cases hr : item.reason <;> simp [hhb, hr]
  · intro item actor
    cases hhb : handle_bad item actor with
    | false =>
      cases hr : item.reason with
      | none =>
        have h0 : strContains "" "reasonRepost" = false := by decide
        simp [is_own_original_post, reason_tag, hhb, hr, h0]
      | some r =>
        cases hc : strContains (r.typeTag.getD "") "reasonRepost" <;>
          simp [is_own_original_post, reason_tag, hhb, hr, hc]
    | true => simp [is_own_original_post, hhb]
  · intro pv
    cases hrec : pv.record with
    | none =>
      have h0 : strContains "" "app.bsky.feed.post" = false := by decide
      simp [is_original_post, hrec, h0]
    | some rc =>
      cases ht : rc.typeTag with
      | none =>
        have h0 : strContains "" "app.bsky.feed.post" = false := by decide
        simp [is_original_post, hrec, ht, h0]
      | some t => simp [is_original_post, hrec, ht]
  · intro pv a
    simp [is_original_post]

/-- Witness for `claim7_amended` at a concrete input: the original-typed
record makes the nakedneighbour1985 check true. -/
theorem claim7_witness :
    is_original_post pvPostRec = true :=
  (claim7_amended.2.2.1 pvPostRec).mpr
    ⟨⟨some "app.bsky.feed.post", none⟩, "app.bsky.feed.post", rfl, rfl, by decide⟩

/-! ### Claim C8 -/

/-- Claim C8 is false as stated: on a feed item with every optional
field missing, the originality check of `multi_reposter_luanablack2.py`
resolves to true (the post is treated as the target's own original
post), not to the conservative not-original classification the claim
requires. -/
theorem claim8_counterexample :
    (bareItem 0).post.author = none ∧
    (bareItem 0).reason = none ∧
    is_own_original_post (bareItem 0) "sometarget" = true := by
  refine ⟨rfl, rfl, by decide⟩

/-- Claim C8 (amended): the classification functions are total (each
field is read through a defaulted attribute access) and a missing embed
or record resolves to the conservative no-media / not-original answer;
but a missing author handle together with a missing reason resolves to
original (true): the handle test excludes only a known differing handle,
so missing identity fields fail open for originality. -/
theorem claim8_amended :
    (∀ pv : PostView, pv.embed = none →
      has_media_grovel pv = false ∧ has_media_luana pv = false ∧
      has_media_naked pv = false) ∧
    (∀ pv : PostView, pv.record = none → is_original_post pv = false) ∧
    (∀ (item : FeedItem) (actor : String), item.post.author = none →
      item.reason = none → is_own_original_post item actor = true) ∧
    (∀ (feed : List FeedItem) (actor : String) (item : FeedItem),
      item ∈ feed → item.post.author = none → item.reason = none →
      has_media_grovel item.post = true → item ∈ filter_valid_posts feed actor) := by
  refine ⟨?_, ?_, ?_, ?_⟩
  · intro pv h
    exact ⟨by simp [has_media_grovel, h], by simp [has_media_luana, h],
      by simp [has_media_naked, h]⟩
  · intro pv h
    have h0 : strContains "" "app.bsky.feed.post" = false := by decide
    simp [is_original_post, h, h0]
  · intro item actor h1 h2
    have h0 : strContains "" "reasonRepost" = false := by decide
    simp [is_own_original_post, handle_bad, reason_tag, truthyStr, h1, h2, h0]
  · intro feed actor item hmem h1 h2 hm
    rw [filter_valid_posts, List.mem_filter]
    exact ⟨hmem, by simp [handle_bad, truthyStr, h1, h2, hm]⟩

/-- Witness for `claim8_amended` at a concrete input: no embed means no
media in all three variants. -/
theorem claim8_witness :
    has_media_grovel pvEmpty = false ∧ has_media_luana pvEmpty = false ∧
    has_media_naked pvEmpty = false :=
  claim8_amended.1 pvEmpty rfl

/-! ### Claim C4 -/

/-- A subpermutation of a duplicate-free list is duplicate-free. -/
theorem subperm_nodup {l1 l2 : List FeedItem} (h : List.Subperm l1 l2)
    (hn : l2.Nodup) : l1.Nodup := by
  obtain ⟨l, hperm, hsl⟩ := h
  exact hperm.nodup (hn.sublist hsl)

/-- A deterministic sampler satisfying the `random.sample` contract,
used to witness the selection theorem. -/
def take_sampler : List FeedItem → Nat → List FeedItem :=
  fun l k => l.take k

/-- `take_sampler` satisfies the `random.sample` contract. -/
theorem take_sampler_spec : SampleSpec take_sampler := by
  intro l k hk
  refine ⟨?_, (List.take_sublist k l).subperm⟩
  simp [take_sampler, List.length_take, Nat.min_eq_left hk]

/-- Claim C4: for any sampler obeying the `random.sample` contract,
`choose_posts_for_run` returns the empty list on an empty candidate
list, and on a duplicate-free non-empty candidate list it returns a
duplicate-free list of length `1 + min olderCount (length - 1)` whose
first element is the newest candidate and whose remaining elements are
drawn from the older candidates. -/
theorem claim4_choose_posts_spec (sampler : List FeedItem → Nat → List FeedItem)
    (hs : SampleSpec sampler) (n : Nat) :
    choose_posts_for_run sampler [] n = [] ∧
    ∀ (c : FeedItem) (rest : List FeedItem), (c :: rest).Nodup →
      (choose_posts_for_run sampler (c :: rest) n).length = 1 + min n rest.length ∧
      (choose_posts_for_run sampler (c :: rest) n).head? = some c ∧
      (choose_posts_for_run sampler (c :: rest) n).Nodup ∧
      ∀ x ∈ (choose_posts_for_run sampler (c :: rest) n).tail, x ∈ rest := by
  refine ⟨rfl, ?_⟩
  intro c rest hnd
  cases rest with
  | nil => simp [choose_posts_for_run]
  | cons b t =>
    have hk : min n (b :: t).length ≤ (b :: t).length := Nat.min_le_right _ _
    obtain ⟨hlen, hsub⟩ := hs (b :: t) (min n (b :: t).length) hk
    have hrest_nd : (b :: t).Nodup := (List.nodup_cons.mp hnd).2
    have hc_notin : c ∉ (b :: t) := (List.nodup_cons.mp hnd).1
    have hs_nd : (sampler (b :: t) (min n (b :: t).length)).Nodup :=
      subperm_nodup hsub hrest_nd
    have heq : choose_posts_for_run sampler (c :: b :: t) n =
        c :: sampler (b :: t) (min n (b :: t).length) := by
      simp [choose_posts_for_run]
    refine ⟨?_, ?_, ?_, ?_⟩
    · rw [heq]
      simp only [List.length_cons] at hlen ⊢
      rw [hlen]
      exact Nat.add_comm _ _
    · rw [heq]
      rfl
    · rw [heq]
      exact List.nodup_cons.mpr ⟨fun hx => hc_notin (hsub.subset hx), hs_nd⟩
    · rw [heq]
      intro x hx
      exact hsub.subset hx

/-- Witness for `claim4_choose_posts_spec` with the deterministic
sampler on three concrete candidates. -/
theorem claim4_witness :
    choose_posts_for_run take_sampler [] 2 = [] ∧
    (choose_posts_for_run take_sampler (bareItem 0 :: [bareItem 1, bareItem 2]) 2).length =
      1 + min 2 2 ∧
    (choose_posts_for_run take_sampler (bareItem 0 :: [bareItem 1, bareItem 2]) 2).head? =
      some (bareItem 0) ∧
    (choose_posts_for_run take_sampler (bareItem 0 :: [bareItem 1, bareItem 2]) 2).Nodup ∧
    ∀ x ∈ (choose_posts_for_run take_sampler (bareItem 0 :: [bareItem 1, bareItem 2]) 2).tail,
      x ∈ [bareItem 1, bareItem 2] := by
  have h := claim4_choose_posts_spec take_sampler take_sampler_spec 2
  have h2 := h.2 (bareItem 0) [bareItem 1, bareItem 2] (by decide)
  exact ⟨h.1, h2.1, h2.2.1, h2.2.2.1, h2.2.2.2⟩

/-! ### Claim C1 -/

/-- In a pairwise-related list, every element is either the last element
or related to it. -/
theorem pairwise_rel_getLast {α : Type} {R : α → α → Prop} :
    ∀ {l : List α} {z : α}, l.Pairwise R → l.getLast? = some z →
      ∀ x ∈ l, x = z ∨ R x z := by
  intro l
  induction l with
  | nil => intro z _ hz; cases hz
  | cons a t ih =>
    intro z hp hz x hx
    cases t with
    | nil =>
      have hz2 : a = z := by
        simpa using hz
      have hx2 : x = a := by
        simpa using hx
      exact Or.inl (hx2.trans hz2)
    | cons b t2 =>
      have hz2 : (b :: t2).getLast? = some z := by
        rwa [List.getLast?_cons_cons] at hz
      obtain ⟨hne, hzeq⟩ := List.mem_getLast?_eq_getLast (l := b :: t2) (x := z) hz2
      have hzmem : z ∈ b :: t2 := hzeq ▸ List.getLast_mem hne
      obtain ⟨ha, hp2⟩ := List.pairwise_cons.mp hp
      rcases List.mem_cons.mp hx with rfl | hx2
      · exact Or.inr (ha z hzmem)
      · exact ih hp2 hz2 x hx2

/-- A post the target published first (lowest feed index) but whose
`createdAt` string sorts low. -/
def itemNewestTs : FeedItem :=
  ⟨0, ⟨"uN", "cN", none, some ⟨some "app.bsky.feed.post", some "1999-12-31T23:59:59Z"⟩,
    none, none, none⟩, none⟩

/-- An older post (higher feed index) whose `createdAt` string sorts
high. -/
def itemOlderTs : FeedItem :=
  ⟨1, ⟨"uO", "cO", none, some ⟨some "app.bsky.feed.post", some "2005-06-15T12:00:00Z"⟩,
    none, none, none⟩, none⟩

/-- Claim C1 is false as stated: the cited
`multi_reposter_luanablack2.py` realization orders the selection with
`sorted(to_repost, key=get_post_timestamp)` — a timestamp string
comparison, not the original feed position.  On a selection whose newest
item (feed index 0) carries the lexicographically smallest `createdAt`
string, that sort leaves the newest item first and puts the older item
(feed index 1) last, so the element at the lowest index of `candidates`
does not appear last. -/
theorem claim1_counterexample :
    get_post_timestamp itemNewestTs = "1999-12-31T23:59:59Z" ∧
    get_post_timestamp itemOlderTs = "2005-06-15T12:00:00Z" ∧
    index_of_oid [itemNewestTs, itemOlderTs] itemNewestTs.oid = 0 ∧
    index_of_oid [itemNewestTs, itemOlderTs] itemOlderTs.oid = 1 ∧
    sorted_by_timestamp_luana [itemNewestTs, itemOlderTs] =
      [itemNewestTs, itemOlderTs] ∧
    (sorted_by_timestamp_luana [itemNewestTs, itemOlderTs]).getLast? =
      some itemOlderTs ∧
    itemOlderTs ≠ itemNewestTs := by
  decide

/-- Claim C1 (amended): only the `multi_reposter_grovel4maeve.py`
variant derives the order from original feed position:
`order_posts_old_to_new` returns a permutation of the selected items
sorted by descending original feed index (no timestamp field is read),
so for a non-empty selection the last element attains the minimal
original index — the newest selected item is synchronized last.  The
`multi_reposter_luanablack2.py` variant instead returns a permutation of
the selection sorted ascending by the `get_post_timestamp` string, which
places the newest item last only when the timestamp strings happen to
order consistently with feed position. -/
theorem claim1_order_old_to_new (selected full : List FeedItem) (h : selected ≠ []) :
    (order_posts_old_to_new selected full).Perm selected ∧
    List.Sorted (fun a b => index_of_oid full b.oid ≤ index_of_oid full a.oid)
      (order_posts_old_to_new selected full) ∧
    (∃ z, (order_posts_old_to_new selected full).getLast? = some z ∧
      ∀ x ∈ selected, index_of_oid full z.oid ≤ index_of_oid full x.oid) ∧
    (sorted_by_timestamp_luana selected).Perm selected ∧
    List.Sorted tsLE (sorted_by_timestamp_luana selected) := by
  have hperm0 : ((selected.map fun fp => (index_of_oid full fp.oid, fp)).insertionSort
      idxGE).Perm (selected.map fun fp => (index_of_oid full fp.oid, fp)) :=
    List.perm_insertionSort idxGE _
  have hordperm : (order_posts_old_to_new selected full).Perm selected := by
    have h1 := hperm0.map Prod.snd
    have h2 : ∀ l : List FeedItem,
        ((l.map fun fp => (index_of_oid full fp.oid, fp)).map Prod.snd) = l := by
      intro l
      induction l with
      | nil => rfl
      | cons a t ih => simp only [List.map_cons, ih]
    have h2 := h2 selected
    rw [h2] at h1
    exact h1
  have hkey : ∀ p ∈ (selected.map fun fp => (index_of_oid full fp.oid, fp)).insertionSort
      idxGE, p.1 = index_of_oid full p.2.oid := by
    intro p hp
    have hp2 := (List.Perm.mem_iff hperm0).mp hp
    obtain ⟨fp, _, rfl⟩ := List.mem_map.mp hp2
    rfl
  have hsorted0 : List.Sorted idxGE
      ((selected.map fun fp => (index_of_oid full fp.oid, fp)).insertionSort idxGE) :=
    List.sorted_insertionSort idxGE _
  have hsorted : List.Sorted (fun a b => index_of_oid full b.oid ≤ index_of_oid full a.oid)
      (order_posts_old_to_new selected full) := by
    refine List.pairwise_map.mpr ?_
    refine hsorted0.imp_of_mem ?_
    intro p q hp hq hr
    have hr2 : q.1 ≤ p.1 := hr
    rw [hkey p hp, hkey q hq] at hr2
    exact hr2
  refine ⟨hordperm, hsorted, ?_, List.perm_insertionSort tsLE selected,
    List.sorted_insertionSort tsLE selected⟩
  have hne : order_posts_old_to_new selected full ≠ [] := by
    intro h0
    apply h
    have hlen := hordperm.length_eq
    rw [h0] at hlen
    exact List.length_eq_zero.mp hlen.symm
  refine ⟨(order_posts_old_to_new selected full).getLast hne,
    List.getLast?_eq_getLast_of_ne_nil hne, ?_⟩
  intro x hx
  have hx2 : x ∈ order_posts_old_to_new selected full := hordperm.mem_iff.mpr hx
  have hlast := pairwise_rel_getLast hsorted
    (List.getLast?_eq_getLast_of_ne_nil hne) x hx2
  rcases hlast with rfl | hle
  · exact le_refl _
  · exact hle

/-- Witness for `claim1_order_old_to_new` on a concrete selection: two
items selected out of a three-item feed. -/
theorem claim1_witness :
    (order_posts_old_to_new [bareItem 10, bareItem 12] [bareItem 10, bareItem 11,
      bareItem 12]).Perm [bareItem 10, bareItem 12] ∧
    List.Sorted (fun a b => index_of_oid [bareItem 10, bareItem 11, bareItem 12] b.oid ≤
      index_of_oid [bareItem 10, bareItem 11, bareItem 12] a.oid)
      (order_posts_old_to_new [bareItem 10, bareItem 12]
        [bareItem 10, bareItem 11, bareItem 12]) ∧
    (∃ z, (order_posts_old_to_new [bareItem 10, bareItem 12]
        [bareItem 10, bareItem 11, bareItem 12]).getLast? = some z ∧
      ∀ x ∈ [bareItem 10, bareItem 12],
        index_of_oid [bareItem 10, bareItem 11, bareItem 12] z.oid ≤
          index_of_oid [bareItem 10, bareItem 11, bareItem 12] x.oid) ∧
    (sorted_by_timestamp_luana [bareItem 10, bareItem 12]).Perm
      [bareItem 10, bareItem 12] ∧
    List.Sorted tsLE (sorted_by_timestamp_luana [bareItem 10, bareItem 12]) :=
  claim1_order_old_to_new [bareItem 10, bareItem 12]
    [bareItem 10, bareItem 11, bareItem 12] (List.cons_ne_nil _ _)

/-! ### Claim C6 -/

/-- `del_repost_calls` contains one repost-delete call when the viewer
holds a repost, none otherwise. -/
theorem countP_del_repost_calls (item : FeedItem) :
    (del_repost_calls item).countP isDeleteRepost =
      if (repost_uri_of item).isSome then 1 else 0 := by
  cases h : repost_uri_of item <;> simp [del_repost_calls, h, isDeleteRepost]

/-- `del_like_calls` contains no repost-delete call. -/
theorem countP_del_like_calls (item : FeedItem) :
    (del_like_calls item).countP isDeleteRepost = 0 := by
  cases h : like_uri_of item <;> simp [del_like_calls, h, isDeleteRepost]

/-- `ensure_like` contains no repost-delete call. -/
theorem countP_ensure_like (o : Oracle) (pv : PostView) :
    (ensure_like o pv).countP isDeleteRepost = 0 := by
  cases h : truthyOpt (pv.viewer.bind Viewer.like) <;> simp [ensure_like, h, isDeleteRepost]

/-- Claim C6: in each of the three synchronisers, the trace splits
around the single repost-create call with exactly one repost-delete call
before it when the viewer state holds an existing repost and zero
repost-delete calls when it does not, and no repost-delete call after
it. -/
theorem claim6_delete_before_create (o : Oracle) (item : FeedItem) :
    (∃ pre suf,
      unrepost_if_needed_and_repost o item =
        pre ++ Call.createRepost item.post.uri item.post.cid :: suf ∧
      pre.countP isDeleteRepost = (if (repost_uri_of item).isSome then 1 else 0) ∧
      suf.countP isDeleteRepost = 0) ∧
    (∃ pre suf,
      unrepost_if_needed_and_repost_with_like o item =
        pre ++ Call.createRepost item.post.uri item.post.cid :: suf ∧
      pre.countP isDeleteRepost = (if (repost_uri_of item).isSome then 1 else 0) ∧
      suf.countP isDeleteRepost = 0) ∧
    (∃ pre suf,
      unrepost_if_needed_and_repost_and_like o item =
        pre ++ Call.createRepost item.post.uri item.post.cid :: suf ∧
      pre.countP isDeleteRepost = (if (repost_uri_of item).isSome then 1 else 0) ∧
      suf.countP isDeleteRepost = 0) := by
  refine ⟨⟨del_repost_calls item, [], rfl, countP_del_repost_calls item, rfl⟩, ?_, ?_⟩
  · cases ho : o.repostOk
    · refine ⟨del_repost_calls item ++ del_like_calls item, [], ?_, ?_, rfl⟩
      · simp [unrepost_if_needed_and_repost_with_like, ho, List.append_assoc]
      · simp [List.countP_append, countP_del_repost_calls, countP_del_like_calls]
    · refine ⟨del_repost_calls item ++ del_like_calls item,
        [Call.createLike item.post.uri item.post.cid], ?_, ?_, ?_⟩
      · simp [unrepost_if_needed_and_repost_with_like, ho, List.append_assoc]
      · simp [List.countP_append, countP_del_repost_calls, countP_del_like_calls]
      · simp [isDeleteRepost]
  · cases ho : o.repostOk
    · refine ⟨del_repost_calls item, [], ?_, countP_del_repost_calls item, rfl⟩
      simp [unrepost_if_needed_and_repost_and_like, ho]
    · refine ⟨del_repost_calls item, ensure_like o item.post, ?_,
        countP_del_repost_calls item, countP_ensure_like o item.post⟩
      simp [unrepost_if_needed_and_repost_and_like, ho, List.append_assoc]

/-! ### Claim C5 -/

/-- Claim C5: the repost-create call is always issued (a failed delete
of the old repost cannot prevent it — the trace depends only on the
repost-creation outcome, never on the delete outcomes); when the repost
creation fails, no like-create call is issued by either like-enabled
variant; and the per-post loop always continues with the remaining
posts. -/
theorem claim5_failure_isolation (o : Oracle) (item : FeedItem) :
    Call.createRepost item.post.uri item.post.cid ∈
      unrepost_if_needed_and_repost_with_like o item ∧
    Call.createRepost item.post.uri item.post.cid ∈
      unrepost_if_needed_and_repost_and_like o item ∧
    (∀ o2 : Oracle, o2.repostOk = o.repostOk →
      unrepost_if_needed_and_repost_with_like o2 item =
        unrepost_if_needed_and_repost_with_like o item ∧
      unrepost_if_needed_and_repost_and_like o2 item =
        unrepost_if_needed_and_repost_and_like o item) ∧
    (o.repostOk = false →
      (∀ u c, Call.createLike u c ∉ unrepost_if_needed_and_repost_with_like o item) ∧
      (∀ u c, Call.createLike u c ∉ unrepost_if_needed_and_repost_and_like o item)) ∧
    (∀ (f : Oracle → FeedItem → List Call) (j : Oracle × FeedItem)
      (rest : List (Oracle × FeedItem)),
      run_posts f (j :: rest) = f j.1 j.2 ++ run_posts f rest) := by
  have hdr : ∀ u c, Call.createLike u c ∉ del_repost_calls item := by
    intro u c
    cases h : repost_uri_of item <;> simp [del_repost_calls, h]
  have hdl : ∀ u c, Call.createLike u c ∉ del_like_calls item := by
    intro u c
    cases h : like_uri_of item <;> simp [del_like_calls, h]
  refine ⟨?_, ?_, ?_, ?_, ?_⟩
  · cases ho : o.repostOk <;>
      simp [unrepost_if_needed_and_repost_with_like, ho]
  · cases ho : o.repostOk <;>
      simp [unrepost_if_needed_and_repost_and_like, ho]
  · intro o2 h
    constructor
    · simp [unrepost_if_needed_and_repost_with_like, h]
    · simp [unrepost_if_needed_and_repost_and_like, h, ensure_like]
  · intro ho
    constructor
    · intro u c
      simp [unrepost_if_needed_and_repost_with_like, ho, hdr u c, hdl u c]
    · intro u c
      simp [unrepost_if_needed_and_repost_and_like, ho, hdr u c]
  · intro f j rest
    rfl

/-- Witness for `claim5_failure_isolation`: under a failing repost
creation the repost is still attempted and no like is created. -/
theorem claim5_witness :
    Call.createRepost "u0" "c0" ∈
      unrepost_if_needed_and_repost_with_like oRepostFails itemRepLiked ∧
    Call.createLike "u0" "c0" ∉
      unrepost_if_needed_and_repost_with_like oRepostFails itemRepLiked :=
  ⟨(claim5_failure_isolation oRepostFails itemRepLiked).1,
   ((claim5_failure_isolation oRepostFails itemRepLiked).2.2.2.1 rfl).1 "u0" "c0"⟩

/-! ### Claim C3 -/

/-- Claim C3 is false as stated: in
`multi_reposter_nakedneighbour1985.py`, with like handling enabled, a
post the account has already liked and whose repost creation succeeds
gets neither a like-delete nor a like-create call — `ensure_like` keeps
the existing like instead of refreshing it. -/
theorem claim3_counterexample :
    like_uri_of itemLikedOnly = some "l1" ∧
    oAllOk.repostOk = true ∧
    unrepost_if_needed_and_repost_and_like oAllOk itemLikedOnly =
      [Call.createRepost "u1" "c1"] := by
  refine ⟨by decide, rfl, by decide⟩

/-- The repost count computed by a call trace does not depend on
whether like creations succeed. -/
theorem runCalls_reposts_likeOk (o : Oracle) (b : Bool) :
    ∀ (cs : List Call) (s1 s2 : RelState), s1.reposts = s2.reposts →
      (runCalls { o with likeOk := b } s1 cs).reposts =
        (runCalls o s2 cs).reposts := by
  intro cs
  induction cs with
  | nil => intro s1 s2 h; exact h
  | cons c t ih =>
    intro s1 s2 h
    have hstep : (applyCall { o with likeOk := b } s1 c).reposts =
        (applyCall o s2 c).reposts := by
      cases c with
      | deleteRepost u => by_cases hd : o.deleteRepostOk <;> simp [applyCall, hd, h]
      | deleteLike u => by_cases hd : o.deleteLikeOk <;> simp [applyCall, hd, h]
      | createRepost u c2 => by_cases hd : o.repostOk <;> simp [applyCall, hd, h]
      | createLike u c2 =>
        by_cases h1 : b <;> by_cases h2 : o.likeOk <;> simp [applyCall, h1, h2, h]
    exact ih (applyCall { o with likeOk := b } s1 c) (applyCall o s2 c) hstep

/-- Claim C3 (amended): in the `multi_reposter_luanablack2.py` variant a
liked post's old like is deleted and a new like is created, the delete
coming before the create (in fact before the repost creation itself),
and a like-creation failure leaves the repost count of the run
unchanged; in the `multi_reposter_nakedneighbour1985.py` variant an
existing like is kept untouched (no delete, no create) and a like is
created only when none exists. -/
theorem claim3_amended (o : Oracle) (item : FeedItem) (lu : String)
    (hl : like_uri_of item = some lu) (hr : o.repostOk = true) :
    unrepost_if_needed_and_repost_with_like o item =
      del_repost_calls item ++
        [Call.deleteLike lu, Call.createRepost item.post.uri item.post.cid,
         Call.createLike item.post.uri item.post.cid] ∧
    (∀ (s : RelState) (b : Bool),
      (runCalls { o with likeOk := b } s
        (unrepost_if_needed_and_repost_with_like o item)).reposts =
      (runCalls o s (unrepost_if_needed_and_repost_with_like o item)).reposts) ∧
    ensure_like o item.post = [] ∧
    (∀ pv : PostView, truthyOpt (pv.viewer.bind Viewer.like) = none →
      ensure_like o pv = [Call.createLike pv.uri pv.cid]) := by
  refine ⟨?_, ?_, ?_, ?_⟩
  · simp [unrepost_if_needed_and_repost_with_like, hr, del_like_calls, hl]
  · intro s b
    exact runCalls_reposts_likeOk o b _ s s rfl
  · have hl2 : truthyOpt (item.post.viewer.bind Viewer.like) = some lu := hl
    simp [ensure_like, hl2]
  · intro pv h
    simp [ensure_like, h]

/-- Witness for `claim3_amended`: the already-liked, already-reposted
post under an all-succeeding oracle. -/
theorem claim3_witness :
    unrepost_if_needed_and_repost_with_like oAllOk itemRepLiked =
      del_repost_calls itemRepLiked ++
        [Call.deleteLike "l0", Call.createRepost "u0" "c0",
         Call.createLike "u0" "c0"] :=
  (claim3_amended oAllOk itemRepLiked "l0" (by decide) rfl).1

/-! ### Claim C10 -/

/-- Claim C10: in the `multi_reposter_luanablack2.py` variant the
existing like is deleted before the repost creation is attempted, so
when the like-delete succeeds and the repost creation fails, the run
ends with zero like relations on the post: the old like is gone and no
like-create call was ever issued. -/
theorem claim10_like_lost (o : Oracle) (item : FeedItem) (lu : String)
    (hl : like_uri_of item = some lu) (hd : o.deleteLikeOk = true)
    (hr : o.repostOk = false) :
    (∃ pre suf, unrepost_if_needed_and_repost_with_like o item =
        pre ++ Call.deleteLike lu :: suf ∧
        Call.createRepost item.post.uri item.post.cid ∈ suf) ∧
    (∀ u c, Call.createLike u c ∉ unrepost_if_needed_and_repost_with_like o item) ∧
    ∀ r0 : Nat, (runCalls o ⟨r0, 1⟩
      (unrepost_if_needed_and_repost_with_like o item)).likes = 0 := by
  have htr : unrepost_if_needed_and_repost_with_like o item =
      del_repost_calls item ++
        [Call.deleteLike lu, Call.createRepost item.post.uri item.post.cid] := by
    simp [unrepost_if_needed_and_repost_with_like, hr, del_like_calls, hl]
  refine ⟨⟨del_repost_calls item,
    [Call.createRepost item.post.uri item.post.cid], ?_, ?_⟩, ?_, ?_⟩
  · rw [htr]
  · simp
  · intro u c
    rw [htr]
    cases h : repost_uri_of item <;> simp [del_repost_calls, h]
  · intro r0
    rw [htr]
    cases h : repost_uri_of item with
    | none => simp [del_repost_calls, h, runCalls, applyCall, hd, hr]
    | some ru =>
      by_cases hdr : o.deleteRepostOk <;>
        simp [del_repost_calls, h, runCalls, applyCall, hd, hr, hdr]

/-- Witness for `claim10_like_lost`: the liked-and-reposted post when
only the repost creation fails, starting from one like record. -/
theorem claim10_witness :
    (runCalls oRepostFails ⟨1, 1⟩
      (unrepost_if_needed_and_repost_with_like oRepostFails itemRepLiked)).likes = 0 :=
  (claim10_like_lost oRepostFails itemRepLiked "l0" (by decide) rfl rfl).2.2 1

/-! ### Claim C9 -/

/-- Claim C9: the account loop produces one outcome per configured
account, each account's outcome depends only on that account's own
environment, and a missing credential pair, a failed login or a failed
fetch each yield the corresponding skip outcome for that account alone
while an account with working credentials, login and fetch runs its
pipeline to completion. -/
theorem claim9_account_isolation (envs : List AccountEnv) (target : String) :
    (main_run envs target).length = envs.length ∧
    (∀ i : Nat, (main_run envs target)[i]? =
      (envs[i]?).map fun e => process_account e target) ∧
    (∀ env : AccountEnv,
      truthyStr env.username = false ∨ truthyStr env.password = false →
      process_account env target = .skippedNoCreds) ∧
    (∀ env : AccountEnv, truthyStr env.username = true →
      truthyStr env.password = true → env.loginOk = false →
      process_account env target = .skippedLogin) ∧
    (∀ env : AccountEnv, truthyStr env.username = true →
      truthyStr env.password = true → env.loginOk = true → env.fetchOk = false →
      process_account env target = .skippedFetch) ∧
    (∀ env : AccountEnv, truthyStr env.username = true →
      truthyStr env.password = true → env.loginOk = true → env.fetchOk = true →
      process_account env target = .ran (filter_valid_posts env.feed target).length) := by
  refine ⟨by simp [main_run], ?_, ?_, ?_, ?_, ?_⟩
  · intro i
    simp [main_run]
  · intro env h
    rcases h with h | h <;> simp [process_account, h]
  · intro env h1 h2 h3
    simp [process_account, h1, h2, h3]
  · intro env h1 h2 h3 h4
    simp [process_account, h1, h2, h3, h4]
  · intro env h1 h2 h3 h4
    simp [process_account, h1, h2, h3, h4]

/-- An account environment with no stored username. -/
def envNoCreds : AccountEnv := ⟨none, some "pw", true, true, []⟩

/-- An account environment with working credentials, login and fetch. -/
def envGood : AccountEnv := ⟨some "user", some "pw", true, true, []⟩

/-- Witness for `claim9_account_isolation`: the credential-less account
is skipped while the account after it is still processed. -/
theorem claim9_witness :
    process_account envNoCreds "tgt" = .skippedNoCreds ∧
    (main_run [envNoCreds, envGood] "tgt")[1]? =
      some (process_account envGood "tgt") := by
  refine ⟨(claim9_account_isolation [envNoCreds, envGood] "tgt").2.2.1 envNoCreds
    (Or.inl rfl), ?_⟩
  have h := (claim9_account_isolation [envNoCreds, envGood] "tgt").2.1 1
  simpa using h
